import Mathlib

/-!
Verification of the catan-spectator core model (models.py, undo.py,
recording.py).

The Python source is embedded shallowly: the pieces dictionary becomes an
association list, enum classes become inductive types together with the
list of members in declaration order, and functions that may raise become
Except-valued functions.  Board and Game operations additionally return
the number of notify_observers calls they perform, so that the
notification claims can be stated.
-/

namespace Catan

/-- Python exception values that the embedded code can raise. -/
inductive PyError where
  | exception (msg : String)
  | keyError
  | valueError
  | runtimeError
deriving DecidableEq

/-- Enum Terrain from models.py. -/
inductive Terrain where
  | wood | brick | wheat | sheep | ore | desert
deriving DecidableEq

/-- list(Terrain): the members in declaration order. -/
def Terrain.members : List Terrain := [.wood, .brick, .wheat, .sheep, .ore, .desert]

/-- The .value attribute of each Terrain member. -/
def Terrain.value : Terrain → String
  | .wood => "wood"
  | .brick => "brick"
  | .wheat => "wheat"
  | .sheep => "sheep"
  | .ore => "ore"
  | .desert => "desert"

/-- Enum HexNumber from models.py (none has value None). -/
inductive HexNumber where
  | none | two | three | four | five | six | eight | nine | ten | eleven | twelve
deriving DecidableEq

/-- list(HexNumber): the members in declaration order. -/
def HexNumber.members : List HexNumber :=
  [.none, .two, .three, .four, .five, .six, .eight, .nine, .ten, .eleven, .twelve]

/-- str(n.value) for a HexNumber n; Python renders the None value as the
string None. -/
def HexNumber.valueStr : HexNumber → String
  | .none => "None"
  | .two => "2"
  | .three => "3"
  | .four => "4"
  | .five => "5"
  | .six => "6"
  | .eight => "8"
  | .nine => "9"
  | .ten => "10"
  | .eleven => "11"
  | .twelve => "12"

/-- Enum PortType from models.py. -/
inductive PortType where
  | any4 | any3 | wood | brick | wheat | sheep | ore | none
deriving DecidableEq

/-- list(PortType): the members in declaration order. -/
def PortType.members : List PortType :=
  [.any4, .any3, .wood, .brick, .wheat, .sheep, .ore, .none]

/-- The .value attribute of each PortType member. -/
def PortType.value : PortType → String
  | .any4 => "4:1"
  | .any3 => "3:1"
  | .wood => "wood"
  | .brick => "brick"
  | .wheat => "wheat"
  | .sheep => "sheep"
  | .ore => "ore"
  | .none => "none"

/-- One advancing step of PortType.next_ui: the member at the next index
in declaration order, wrapping by the modulus used in the source. -/
def PortType.nextRaw (ptype : PortType) : PortType :=
  PortType.members.getD ((PortType.members.indexOf ptype + 1) % PortType.members.length) .any4

/-- PortType.next_ui from models.py.  The source retries recursively when
the advanced member is any4; since any4 sits at index 0, that recursive
call returns immediately, so one extra unfolding embeds it exactly. -/
def PortType.next_ui (ptype : PortType) : PortType :=
  let nextPortType := PortType.nextRaw ptype
  if nextPortType = PortType.any4 then PortType.nextRaw PortType.any4 else nextPortType

/-- Class Player from models.py: the stored (already normalized) fields. -/
structure Player where
  seat : Int
  name : String
  color : String
deriving DecidableEq

/-- Python str.lower(): lowercases every character. -/
def pyLower (s : String) : String := String.mk (s.data.map Char.toLower)

/-- Python str.replace(single space, empty string): removes every space
character. -/
def pyRemoveSpaces (s : String) : String := String.mk (s.data.filter (fun c => c ≠ ' '))

/-- Player.__init__ from models.py: rejects a seat outside [1,4], stores
name and color lowercased with every space removed. -/
def Player.init (seat : Int) (name color : String) : Except PyError Player :=
  if ¬ (1 ≤ seat ∧ seat ≤ 4) then
    .error (.exception "Seat must be on [1,4]")
  else
    .ok { seat := seat,
          name := pyRemoveSpaces (pyLower name),
          color := pyRemoveSpaces (pyLower color) }

/-- Enum PieceType from models.py. -/
inductive PieceType where
  | settlement | road | city | robber
deriving DecidableEq

/-- Class Piece from models.py.  The type and owner fields hold Python
None in some code paths (the robber has no owner; get_pieces with
coord=None builds Piece(None, None)), hence the Option wrappers. -/
structure Piece where
  type : Option PieceType
  owner : Option Player
deriving DecidableEq

/-- The three hexgrid index spaces EDGE, NODE and TILE used as the first
component of keys of the pieces dictionary. -/
inductive HexType where
  | edge | node | tile
deriving DecidableEq

/-- Board._piece_type_to_hex_type from models.py; the fallthrough branch
returns Python None for an unknown piece type. -/
def piece_type_to_hex_type : Option PieceType → Option HexType
  | some .road => some .edge
  | some .settlement => some .node
  | some .city => some .node
  | some .robber => some .tile
  | Option.none => Option.none

/-- Class Port from models.py. -/
structure Port where
  tile_id : Nat
  direction : String
  type : PortType
deriving DecidableEq

/-- Keys of the Board.pieces dictionary: (hexgrid index space, coordinate). -/
abbrev PieceKey := Option HexType × Nat

/-- The Board.pieces dictionary, embedded as an association list with
unique keys in insertion order. -/
abbrev PieceMap := List (PieceKey × Piece)

/-- Dictionary lookup. -/
def mapFind (m : PieceMap) (k : PieceKey) : Option Piece :=
  (m.find? (fun kv => kv.1 == k)).map (fun kv => kv.2)

/-- Python membership test (k in dict). -/
def mapContains (m : PieceMap) (k : PieceKey) : Bool :=
  (mapFind m k).isSome

/-- Dictionary store dict[k] = v: overwrites in place, else appends. -/
def mapInsert (m : PieceMap) (k : PieceKey) (v : Piece) : PieceMap :=
  match m with
  | [] => [(k, v)]
  | kv :: rest => if kv.1 = k then (k, v) :: rest else kv :: mapInsert rest k v

/-- Dictionary dict.pop(k): removes the (unique) entry with key k. -/
def mapErase (m : PieceMap) (k : PieceKey) : PieceMap :=
  match m with
  | [] => []
  | kv :: rest => if kv.1 = k then rest else kv :: mapErase rest k

/-- Modelled from the spec: module states is not part of src/.  A board
state is either locked or modifiable, and state.modifiable() answers
whether structural edits are allowed (spec 4.2: while locked, cycle
operations are rejected). -/
inductive BoardState where
  | locked | modifiable
deriving DecidableEq

/-- The state.modifiable() query. -/
def BoardState.isModifiable : BoardState → Bool
  | .locked => false
  | .modifiable => true

/-- Class Tile from models.py. -/
structure Tile where
  tile_id : Nat
  terrain : Terrain
  number : HexNumber
deriving DecidableEq

/-- Class Board from models.py: tiles, ports, lock state and the pieces
dictionary. -/
structure Board where
  tiles : List Tile
  ports : List Port
  state : BoardState
  pieces : PieceMap
deriving DecidableEq

/-- Board.place_piece from models.py.  can_place_piece returns True (with
a warning log) for each of the four concrete piece types, and place_piece
stores the piece unconditionally even when can_place_piece is False, so
the embedding is an unconditional dictionary store.  place_piece performs
no notify_observers call; the second component counts those calls. -/
def Board.place_piece (b : Board) (piece : Piece) (coord : Nat) : Board × Nat :=
  let hex_type := piece_type_to_hex_type piece.type
  ({ b with pieces := mapInsert b.pieces (hex_type, coord) piece }, 0)

/-- Board.remove_piece from models.py.  The source wraps
self.pieces.pop(index) in try/except ValueError, but dict.pop on a
missing key raises KeyError, which the ValueError handler does not catch,
so the exception propagates to the caller.  No notify_observers call. -/
def Board.remove_piece (b : Board) (piece : Piece) (coord : Nat) :
    Except PyError (Board × Nat) :=
  let index : PieceKey := (piece_type_to_hex_type piece.type, coord)
  if mapContains b.pieces index then
    .ok ({ b with pieces := mapErase b.pieces index }, 0)
  else
    .error .keyError

/-- Board.move_piece from models.py: warns and returns when no matching
piece is at from_coord, otherwise places at to_coord then removes from
from_coord.  No notify_observers call. -/
def Board.move_piece (b : Board) (piece : Piece) (from_coord to_coord : Nat) :
    Except PyError (Board × Nat) :=
  let from_index : PieceKey := (piece_type_to_hex_type piece.type, from_coord)
  if mapContains b.pieces from_index = false then
    .ok (b, 0)
  else
    let placed := (b.place_piece piece to_coord).1
    (placed.remove_piece piece from_coord).map (fun r => (r.1, 0))

/-- Return values of Board.get_pieces: normally a list of pieces, but the
coord=None branch returns a single bare Piece(None, None). -/
inductive GetPiecesResult where
  | list (pieces : List Piece)
  | single (piece : Piece)
deriving DecidableEq

/-- Board.get_pieces from models.py.  The source builds a set of indexes
from the requested types; set iteration order is modelled as first
occurrence order after deduplication (the claims about get_pieces are
membership statements, indifferent to order). -/
def Board.get_pieces (b : Board) (types : List PieceType) (coord : Option Nat) :
    GetPiecesResult :=
  match coord with
  | Option.none => .single { type := Option.none, owner := Option.none }
  | some c =>
      let indexes := (types.map (fun t => ((piece_type_to_hex_type (some t), c) : PieceKey))).dedup
      .list (indexes.filterMap (fun idx => mapFind b.pieces idx))

/-- Board.get_port_at from models.py: returns the first port of the ports
list anchored at (tile_id, direction); when none exists, appends and
returns a fresh none-typed port. -/
def Board.get_port_at (b : Board) (tile_id : Nat) (direction : String) : Port × Board :=
  match b.ports.find? (fun p => p.tile_id == tile_id && p.direction == direction) with
  | some p => (p, b)
  | Option.none =>
      let port : Port := { tile_id := tile_id, direction := direction, type := PortType.none }
      (port, { b with ports := b.ports ++ [port] })

/-- Board.lock from models.py: sets the locked state, removes every
none-typed port (the source iterates a copy of the list and removes each
none-typed entry by identity, which is a filter), then calls
notify_observers once. -/
def Board.lock (b : Board) : Board × Nat :=
  ({ b with state := .locked,
            ports := b.ports.filter (fun p => p.type != PortType.none) }, 1)

/-- Board.unlock from models.py: sets the modifiable state; no
notify_observers call. -/
def Board.unlock (b : Board) : Board × Nat :=
  ({ b with state := .modifiable }, 0)

/-- In-place update of the element at a given position; positions past
the end are left untouched (Python instead raises IndexError there, and
the tile_id=0 wraparound of negative indexing is likewise outside the
embedded domain: the theorems below restrict to valid tile ids). -/
def modifyNth {α : Type} (f : α → α) : Nat → List α → List α
  | _, [] => []
  | 0, x :: xs => f x :: xs
  | n + 1, x :: xs => x :: modifyNth f n xs

/-- Board.cycle_hex_type from models.py: on a modifiable board, replaces
the terrain of tiles[tile_id - 1] by the member at the next index of
list(Terrain) modulo its length; on a locked board only logs.  Either way
notify_observers is called once. -/
def Board.cycle_hex_type (b : Board) (tile_id : Nat) : Board × Nat :=
  if b.state.isModifiable then
    let step := fun tile =>
      let next_idx := (Terrain.members.indexOf tile.terrain + 1) % Terrain.members.length
      { tile with terrain := Terrain.members.getD next_idx tile.terrain }
    ({ b with tiles := modifyNth step (tile_id - 1) b.tiles }, 1)
  else (b, 1)

/-- Board.cycle_hex_number from models.py, same shape as cycle_hex_type
over list(HexNumber). -/
def Board.cycle_hex_number (b : Board) (tile_id : Nat) : Board × Nat :=
  if b.state.isModifiable then
    let step := fun tile =>
      let next_idx := (HexNumber.members.indexOf tile.number + 1) % HexNumber.members.length
      { tile with number := HexNumber.members.getD next_idx tile.number }
    ({ b with tiles := modifyNth step (tile_id - 1) b.tiles }, 1)
  else (b, 1)

/-- Update of the first port anchored at (tile_id, direction): the
in-place object mutation done by cycle_port_type touches exactly the port
returned by get_port_at, which is the first matching entry. -/
def updatePortFirst (ports : List Port) (tile_id : Nat) (direction : String)
    (f : Port → Port) : List Port :=
  match ports with
  | [] => []
  | p :: rest =>
      if p.tile_id = tile_id ∧ p.direction = direction then f p :: rest
      else p :: updatePortFirst rest tile_id direction f

/-- Board.cycle_port_type from models.py: on a modifiable board, fetches
(or lazily creates) the port at the anchor and advances its type by
PortType.next_ui; on a locked board only logs.  Either way
notify_observers is called once. -/
def Board.cycle_port_type (b : Board) (tile_id : Nat) (direction : String) : Board × Nat :=
  if b.state.isModifiable then
    let b1 := (b.get_port_at tile_id direction).2
    let step := fun p => { p with type := PortType.next_ui p.type }
    ({ b1 with ports := updatePortFirst b1.ports tile_id direction step }, 1)
  else (b, 1)

/-- Modelled from the spec: module states is not part of src/.  The state
objects matter to the embedded Game operations only through their class
tag; spec 4.3 lists the seven states. -/
inductive GameStateTag where
  | notInGame | preGamePlaceSettlement | preGamePlaceRoad | beginTurn
  | duringTurnAfterRoll | moveRobber | moveRobberUsingKnight
deriving DecidableEq

/-- Class Game from models.py: the per-game fields read or written by
Game.reset, plus the owned board. -/
structure Game where
  players : List Player
  board : Board
  state : GameStateTag
  last_roll : Option Nat
  last_player_to_roll : Option Player
  cur_player : Option Player
  cur_turn : Nat
deriving DecidableEq

/-- Game.reset from models.py: empties the players list, sets the state
back to NotInGame, clears last_roll, last_player_to_roll and _cur_player,
zeroes _cur_turn, then calls notify_observers once (counted in the second
component).  The board field is not touched by the source. -/
def Game.reset (g : Game) : Game × Nat :=
  ({ g with players := [], state := .notInGame, last_roll := Option.none,
            last_player_to_roll := Option.none, cur_player := Option.none,
            cur_turn := 0 }, 1)

/-- Class UndoManager from undo.py: a Python list used as a stack, with
append at the end and pop() from the end. -/
structure UndoManager (C : Type) where
  command_stack : List C
deriving DecidableEq

/-- UndoManager.do from undo.py (do is reserved in Lean): appends the
command to the stack, then invokes its apply step on the game state. -/
def UndoManager.do_ {C S : Type} (m : UndoManager C) (command : C)
    (doStep : C → S → S) (s : S) : UndoManager C × S :=
  ({ command_stack := m.command_stack ++ [command] }, doStep command s)

/-- UndoManager.can_undo from undo.py. -/
def UndoManager.can_undo {C : Type} (m : UndoManager C) : Bool :=
  decide (m.command_stack.length > 0)

/-- UndoManager.undo from undo.py: raises before touching the stack when
it is empty; otherwise pops the last (most recently appended) command and
invokes its reverse step on the game state. -/
def UndoManager.undo {C S : Type} (m : UndoManager C) (undoStep : C → S → S)
    (s : S) : Except PyError (UndoManager C × S) :=
  match m.command_stack.getLast? with
  | Option.none => .error (.exception "Cannot perform undo, command stack is empty")
  | some command => .ok ({ command_stack := m.command_stack.dropLast }, undoStep command s)

/-- Class GameRecord from recording.py: the accumulated record text and
the construction-time timestamp rendered as text. -/
structure GameRecord where
  record_str : String
  timestamp : String
deriving DecidableEq

/-- GameRecord.version from recording.py. -/
def GameRecord.version : String := "0.0.1"

/-- GameRecord.recordln from recording.py: appends the content plus a
newline to the record. -/
def GameRecord.recordln (r : GameRecord) (content : String) : GameRecord :=
  { r with record_str := r.record_str ++ content ++ "\n" }

/-- Seat comparison used by GameRecord._set_players via sort(key=seat). -/
def seatLE (a b : Player) : Prop := a.seat ≤ b.seat

instance : DecidableRel seatLE := fun a b => inferInstanceAs (Decidable (a.seat ≤ b.seat))

instance : IsTotal Player seatLE := ⟨fun a b => Int.le_total a.seat b.seat⟩

instance : IsTrans Player seatLE := ⟨fun _ _ _ h1 h2 => Int.le_trans h1 h2⟩

/-- The per-player roster line of GameRecord._set_players. -/
def playerLine (p : Player) : String :=
  "name: " ++ p.name ++ ", color: " ++ p.color ++ ", seat: " ++ toString p.seat

/-- GameRecord._set_players from recording.py: the players count line,
then one line per player after a stable ascending sort by seat (Python
list.sort is stable; a stable sort by a total preorder is exactly
insertion sort). -/
def GameRecord.set_players (r : GameRecord) (players : List Player) : GameRecord :=
  let r1 := r.recordln ("players: " ++ toString players.length)
  (players.insertionSort seatLE).foldl (fun acc p => acc.recordln (playerLine p)) r1

/-- GameRecord._set_board_terrain from recording.py. -/
def GameRecord.set_board_terrain (r : GameRecord) (terrain : List Terrain) : GameRecord :=
  r.recordln ("terrain: " ++ String.intercalate " " (terrain.map Terrain.value))

/-- GameRecord._set_board_numbers from recording.py; the None value of
the desert number renders as the string None. -/
def GameRecord.set_board_numbers (r : GameRecord) (numbers : List HexNumber) : GameRecord :=
  r.recordln ("numbers: " ++ String.intercalate " " (numbers.map HexNumber.valueStr))

/-- GameRecord._set_board_ports from recording.py; per its docstring the
argument is a list of port type enum members, rendered by .value. -/
def GameRecord.set_board_ports (r : GameRecord) (ports : List PortType) : GameRecord :=
  r.recordln ("ports: " ++ String.intercalate " " (ports.map PortType.value))

/-- GameRecord.record_pregame from recording.py: version line, timestamp
line, players block, terrain line, numbers line, ports line, closing
...CATAN! line. -/
def GameRecord.record_pregame (r : GameRecord) (players : List Player)
    (terrain : List Terrain) (numbers : List HexNumber) (ports : List PortType) :
    GameRecord :=
  let r1 := r.recordln ("CatanGameRecord v" ++ GameRecord.version)
  let r2 := r1.recordln ("timestamp: " ++ r1.timestamp)
  let r3 := r2.set_players players
  let r4 := r3.set_board_terrain terrain
  let r5 := r4.set_board_numbers numbers
  let r6 := r5.set_board_ports ports
  r6.recordln "...CATAN!"

/-- Game.notify_observers from models.py iterates over a copy of the
observers set.  The set is modelled as a list of observers o; the notify
callback of an observer may rewrite the observer collection, modelled by
step.  The result is the final observer collection together with the list
of observers that received the callback, in order. -/
def gameNotifyObservers {O : Type} (step : O → List O → List O) (observers : List O) :
    List O × List O :=
  observers.foldl (fun acc o => (step o acc.1, acc.2 ++ [o])) (observers, [])

/-- Iteration engine of Board.notify_observers: CPython set iteration
raises RuntimeError as soon as the set size differs from the size at the
start of the iteration, checked at every iterator step including the
exhaustion step.  pending holds the not-yet-visited elements, invoked the
observers already called, observers the live collection. -/
def boardNotifyGo {O : Type} (step : O → List O → List O) (size0 : Nat) :
    List O → List O → List O → Except PyError (List O × List O)
  | [], invoked, observers =>
      if observers.length = size0 then .ok (observers, invoked) else .error .runtimeError
  | o :: rest, invoked, observers =>
      if observers.length = size0 then
        boardNotifyGo step size0 rest (invoked ++ [o]) (step o observers)
      else .error .runtimeError

/-- Board.notify_observers from models.py iterates the live observers set
with no copy, so a callback that changes the set size makes the iteration
raise RuntimeError. -/
def boardNotifyObservers {O : Type} (step : O → List O → List O) (observers : List O) :
    Except PyError (List O × List O) :=
  boardNotifyGo step observers.length observers [] observers

/-- Written from the words of the spec: one step through the declared
Terrain order, wrapping from the last member back to the first. -/
def Terrain.declaredNext : Terrain → Terrain
  | .wood => .brick
  | .brick => .wheat
  | .wheat => .sheep
  | .sheep => .ore
  | .ore => .desert
  | .desert => .wood

/-- Written from the words of the spec: one step through the declared
HexNumber order, wrapping from the last member back to the first. -/
def HexNumber.declaredNext : HexNumber → HexNumber
  | .none => .two
  | .two => .three
  | .three => .four
  | .four => .five
  | .five => .six
  | .six => .eight
  | .eight => .nine
  | .nine => .ten
  | .ten => .eleven
  | .eleven => .twelve
  | .twelve => .none

/-- Written from the words of the spec: one step through the declared
PortType order, wrapping from the last member back to the first. -/
def PortType.declaredNext : PortType → PortType
  | .any4 => .any3
  | .any3 => .wood
  | .wood => .brick
  | .brick => .wheat
  | .wheat => .sheep
  | .sheep => .ore
  | .ore => .none
  | .none => .any4

/-- The index arithmetic of the terrain cycle computes the declared-order
successor. -/
theorem terrain_step_eq_declaredNext (t d : Terrain) :
    Terrain.members.getD ((Terrain.members.indexOf t + 1) % Terrain.members.length) d
      = Terrain.declaredNext t := by
  cases t <;> rfl

/-- The index arithmetic of the number cycle computes the declared-order
successor. -/
theorem hexnumber_step_eq_declaredNext (n d : HexNumber) :
    HexNumber.members.getD ((HexNumber.members.indexOf n + 1) % HexNumber.members.length) d
      = HexNumber.declaredNext n := by
  cases n <;> rfl

/-- PortType.next_ui computes the declared-order successor except that a
step landing on any4 yields any3 instead. -/
theorem next_ui_eq_declaredNext_skip (p : PortType) :
    PortType.next_ui p =
      (if PortType.declaredNext p = .any4 then .any3 else PortType.declaredNext p) := by
  cases p <;> rfl

/-- Claim C1: move_piece on an absent source index is an absorbed warning
no-op as the spec says, but remove_piece on an absent index is fatal: the
source catches ValueError while dict.pop raises KeyError, so on the empty
board removing a road piece raises an uncaught KeyError instead of
logging, contradicting the intent shown by the except handler itself. -/
theorem C1_remove_piece_keyerror :
    (Board.move_piece { tiles := [], ports := [], state := .modifiable, pieces := [] }
        { type := some .road, owner := Option.none } 39 40
      = .ok ({ tiles := [], ports := [], state := .modifiable, pieces := [] }, 0))
    ∧ (Board.remove_piece { tiles := [], ports := [], state := .modifiable, pieces := [] }
        { type := some .road, owner := Option.none } 39
      = .error .keyError) := by
  exact ⟨rfl, rfl⟩

/-- Claim C2: undo on an empty command stack fails with the EmptyStack
condition before any mutation (so no reverse step runs and the stack is
untouched); on a non-empty stack undo pops exactly the most recently
pushed command and invokes its reverse step, as witnessed both for an
arbitrary decomposition stack = rest ++ [c] and for a stack produced by
do. -/
theorem C2_undo_manager {C S : Type} (m : UndoManager C) (undoStep doStep : C → S → S) (s : S) :
    (m.command_stack = [] →
      m.undo undoStep s = .error (.exception "Cannot perform undo, command stack is empty"))
    ∧ (∀ (rest : List C) (c : C), m.command_stack = rest ++ [c] →
        m.undo undoStep s = .ok ({ command_stack := rest }, undoStep c s))
    ∧ (∀ (c : C) (t : S),
        ((m.do_ c doStep t).1).undo undoStep s = .ok (m, undoStep c s)) := by
  refine ⟨?_, ?_, ?_⟩
  · intro h
    simp [UndoManager.undo, h]
  · intro rest c h
    simp [UndoManager.undo, h]
  · intro c t
    simp [UndoManager.undo, UndoManager.do_]

/-- Witness for claim C2 at concrete stacks over Nat commands. -/
theorem C2_undo_manager_witness :
    (UndoManager.undo (C := Nat) (S := Nat) ⟨[]⟩ (fun c s => s + c) 0
      = .error (.exception "Cannot perform undo, command stack is empty"))
    ∧ (UndoManager.undo (C := Nat) (S := Nat) ⟨[1, 2]⟩ (fun c s => s + c) 10
      = .ok (⟨[1]⟩, 12)) := by
  constructor
  · exact (C2_undo_manager ⟨[]⟩ (fun c s => s + c) (fun c s => s + c) 0).1 rfl
  · exact (C2_undo_manager ⟨[1, 2]⟩ (fun c s => s + c) (fun c s => s + c) 10).2.1 [1] 2 rfl

/-- Claim C6: constructing a player fails for a seat outside [1,4]; for a
seat in [1,4] it succeeds and stores the seat unchanged and the name and
color lowercased with every space removed. -/
theorem C6_player_construction (seat : Int) (name color : String) :
    (¬ (1 ≤ seat ∧ seat ≤ 4) →
      Player.init seat name color = .error (.exception "Seat must be on [1,4]"))
    ∧ ((1 ≤ seat ∧ seat ≤ 4) →
      Player.init seat name color =
        .ok { seat := seat,
              name := pyRemoveSpaces (pyLower name),
              color := pyRemoveSpaces (pyLower color) }) := by
  constructor
  · intro h
    simp [Player.init, h]
  · intro h
    simp [Player.init, h]

/-- Witness for claim C6: seat 2 succeeds with normalized fields, seat 5
fails. -/
theorem C6_player_construction_witness :
    (Player.init 2 "Bob A" "Dark Red" = .ok { seat := 2, name := "boba", color := "darkred" })
    ∧ (Player.init 5 "x" "y" = .error (.exception "Seat must be on [1,4]")) := by
  constructor
  · have h := (C6_player_construction 2 "Bob A" "Dark Red").2 (by decide)
    rw [h]
    rfl
  · exact (C6_player_construction 5 "x" "y").1 (by decide)

/-- Claim C3 counterexample: on an unlocked board holding a none-typed
port, one cycle_port_type call yields an any3-typed port, although one
step through the declared PortType order from the last member none wraps
to the first member any4; the source skips any4. -/
theorem C3_counterexample :
    ((Board.cycle_port_type
        { tiles := [], ports := [{ tile_id := 1, direction := "W", type := PortType.none }],
          state := .modifiable, pieces := [] } 1 "W").1.ports
      = [{ tile_id := 1, direction := "W", type := PortType.any3 }])
    ∧ PortType.members.head? = some PortType.any4
    ∧ PortType.any3 ≠ PortType.any4 := by
  refine ⟨rfl, rfl, by decide⟩

/-- Claim C3 amended: while the board is locked all three cycle
operations leave the board unchanged; while unlocked, cycle_hex_type and
cycle_hex_number advance the stored value of the addressed tile exactly
one declared-order step (wrapping last to first) and leave every other
tile untouched, and cycle_port_type advances the stored type of the first
port at the anchor (lazily created when absent) one declared-order step
except that a step landing on any4 yields any3. -/
theorem C3_cycle_operations (b : Board) (tile_id : Nat) (direction : String) :
    (b.state = .locked →
      (b.cycle_hex_type tile_id).1 = b
      ∧ (b.cycle_hex_number tile_id).1 = b
      ∧ (b.cycle_port_type tile_id direction).1 = b)
    ∧ (b.state = .modifiable →
      ((b.cycle_hex_type tile_id).1.tiles =
        modifyNth (fun tile => { tile with terrain := Terrain.declaredNext tile.terrain })
          (tile_id - 1) b.tiles)
      ∧ ((b.cycle_hex_number tile_id).1.tiles =
        modifyNth (fun tile => { tile with number := HexNumber.declaredNext tile.number })
          (tile_id - 1) b.tiles)
      ∧ ((b.cycle_port_type tile_id direction).1.ports =
        updatePortFirst (b.get_port_at tile_id direction).2.ports tile_id direction
          (fun p => { p with type :=
            if PortType.declaredNext p.type = .any4 then .any3
            else PortType.declaredNext p.type }))) := by
  constructor
  · intro h
    refine ⟨?_, ?_, ?_⟩ <;>
      simp [Board.cycle_hex_type, Board.cycle_hex_number, Board.cycle_port_type, h,
        BoardState.isModifiable]
  · intro h
    refine ⟨?_, ?_, ?_⟩
    · simp only [Board.cycle_hex_type, h, BoardState.isModifiable, if_true]
      congr 1
      funext tile
      rw [terrain_step_eq_declaredNext]
    · simp only [Board.cycle_hex_number, h, BoardState.isModifiable, if_true]
      congr 1
      funext tile
      rw [hexnumber_step_eq_declaredNext]
    · simp only [Board.cycle_port_type, h, BoardState.isModifiable, if_true]
      congr 1
      funext p
      rw [next_ui_eq_declaredNext_skip]

/-- Witness for claim C3 at a concrete locked and a concrete unlocked
board. -/
theorem C3_cycle_operations_witness :
    ((Board.cycle_hex_type
        { tiles := [{ tile_id := 1, terrain := .wood, number := .none }], ports := [],
          state := .locked, pieces := [] } 1).1
      = { tiles := [{ tile_id := 1, terrain := .wood, number := .none }], ports := [],
          state := .locked, pieces := [] })
    ∧ ((Board.cycle_hex_type
        { tiles := [{ tile_id := 1, terrain := .wood, number := .none }], ports := [],
          state := .modifiable, pieces := [] } 1).1.tiles
      = modifyNth (fun tile => { tile with terrain := Terrain.declaredNext tile.terrain }) 0
          [{ tile_id := 1, terrain := .wood, number := .none }]) := by
  constructor
  · exact ((C3_cycle_operations _ 1 "W").1 rfl).1
  · exact ((C3_cycle_operations _ 1 "W").2 rfl).1

/-- Claim C4 counterexample: place_piece changes the piece map of the
concrete empty board yet performs zero notify_observers calls, so a
registered observer is not notified of this mutation. -/
theorem C4_counterexample :
    ((Board.place_piece { tiles := [], ports := [], state := .modifiable, pieces := [] }
        { type := some .robber, owner := Option.none } 7).2 = 0)
    ∧ ((Board.place_piece { tiles := [], ports := [], state := .modifiable, pieces := [] }
        { type := some .robber, owner := Option.none } 7).1.pieces
      ≠ ({ tiles := [], ports := [], state := .modifiable, pieces := [] } : Board).pieces) := by
  exact ⟨rfl, by decide⟩

/-- Claim C4 amended: the three cycle operations and lock each perform
exactly one notify_observers call (after their mutation); place_piece,
move_piece and remove_piece perform none. -/
theorem C4_notifications (b : Board) (piece : Piece) (tile_id c c2 : Nat) (direction : String) :
    (b.cycle_hex_type tile_id).2 = 1
    ∧ (b.cycle_hex_number tile_id).2 = 1
    ∧ (b.cycle_port_type tile_id direction).2 = 1
    ∧ b.lock.2 = 1
    ∧ (b.place_piece piece c).2 = 0
    ∧ (∀ r, b.move_piece piece c c2 = .ok r → r.2 = 0)
    ∧ (∀ r, b.remove_piece piece c = .ok r → r.2 = 0) := by
  refine ⟨?_, ?_, ?_, rfl, rfl, ?_, ?_⟩
  · cases hb : b.state.isModifiable <;> simp [Board.cycle_hex_type, hb]
  · cases hb : b.state.isModifiable <;> simp [Board.cycle_hex_number, hb]
  · cases hb : b.state.isModifiable <;> simp [Board.cycle_port_type, hb]
  · intro r hr
    unfold Board.move_piece at hr
    dsimp only at hr
    split at hr
    · simp only [Except.ok.injEq] at hr
      rw [← hr]
    · unfold Board.remove_piece at hr
      dsimp only at hr
      split at hr
      · simp only [Except.map, Except.ok.injEq] at hr
        rw [← hr]
      · simp [Except.map] at hr
  · intro r hr
    unfold Board.remove_piece at hr
    dsimp only at hr
    split at hr
    · simp only [Except.ok.injEq] at hr
      rw [← hr]
    · simp at hr

/-- Witness for claim C4 at the concrete empty board (the move and remove
hypotheses are discharged at an absent and a present index
respectively). -/
theorem C4_notifications_witness :
    ((Board.cycle_hex_type { tiles := [], ports := [], state := .locked, pieces := [] } 1).2 = 1)
    ∧ ((({ tiles := [], ports := [], state := .modifiable, pieces := [] } : Board), 0).2 = 0) := by
  constructor
  · exact (C4_notifications { tiles := [], ports := [], state := .locked, pieces := [] }
      { type := some .road, owner := Option.none } 1 39 40 "W").1
  · exact (C4_notifications { tiles := [], ports := [], state := .modifiable, pieces := [] }
      { type := some .road, owner := Option.none } 1 39 40 "W").2.2.2.2.2.1
      ({ tiles := [], ports := [], state := .modifiable, pieces := [] }, 0) rfl

/-- Claim C5 counterexample: resetting a concrete game whose board holds
a robber piece leaves the board, its piece map included, exactly as it
was; the placed pieces are not cleared and no fresh board is generated. -/
theorem C5_counterexample :
    ((Game.reset
      { players := [{ seat := 1, name := "a", color := "red" }],
        board := { tiles := [], ports := [], state := .locked,
                   pieces := [((some .tile, 7), { type := some .robber, owner := Option.none })] },
        state := .beginTurn, last_roll := some 8, last_player_to_roll := Option.none,
        cur_player := Option.none, cur_turn := 3 }).1.board
      = { tiles := [], ports := [], state := .locked,
          pieces := [((some .tile, 7), { type := some .robber, owner := Option.none })] })
    ∧ ((Game.reset
      { players := [{ seat := 1, name := "a", color := "red" }],
        board := { tiles := [], ports := [], state := .locked,
                   pieces := [((some .tile, 7), { type := some .robber, owner := Option.none })] },
        state := .beginTurn, last_roll := some 8, last_player_to_roll := Option.none,
        cur_player := Option.none, cur_turn := 3 }).1.board.pieces ≠ []) := by
  exact ⟨rfl, by decide⟩

/-- Claim C5 amended: Game.reset clears the players list, the roll and
roller fields, the current player, the turn counter, and puts the game
state back to NotInGame, but leaves the owned board, its placed pieces
included, completely untouched. -/
theorem C5_game_reset (g : Game) :
    (g.reset.1.players = [])
    ∧ (g.reset.1.state = .notInGame)
    ∧ (g.reset.1.last_roll = Option.none)
    ∧ (g.reset.1.last_player_to_roll = Option.none)
    ∧ (g.reset.1.cur_player = Option.none)
    ∧ (g.reset.1.cur_turn = 0)
    ∧ (g.reset.1.board = g.board) := by
  exact ⟨rfl, rfl, rfl, rfl, rfl, rfl, rfl⟩

/-- Claim C7: get_port_at returns an already registered port at the
anchor, leaving the board unchanged, when one exists; otherwise it
returns a fresh none-typed port after appending it to the port list; and
a second call with the same arguments returns the same port and the same
board (the get-or-create is idempotent). -/
theorem C7_get_port_at (b : Board) (tile_id : Nat) (direction : String) :
    ((∃ p ∈ b.ports, p.tile_id = tile_id ∧ p.direction = direction) →
      (b.get_port_at tile_id direction).2 = b
      ∧ (b.get_port_at tile_id direction).1 ∈ b.ports
      ∧ (b.get_port_at tile_id direction).1.tile_id = tile_id
      ∧ (b.get_port_at tile_id direction).1.direction = direction)
    ∧ ((¬ ∃ p ∈ b.ports, p.tile_id = tile_id ∧ p.direction = direction) →
      (b.get_port_at tile_id direction).1
        = { tile_id := tile_id, direction := direction, type := PortType.none }
      ∧ (b.get_port_at tile_id direction).2.ports
        = b.ports ++ [(b.get_port_at tile_id direction).1])
    ∧ ((b.get_port_at tile_id direction).2.get_port_at tile_id direction
        = ((b.get_port_at tile_id direction).1, (b.get_port_at tile_id direction).2)) := by
  cases hf : b.ports.find? (fun p => p.tile_id == tile_id && p.direction == direction) with
  | none =>
      have hnone : ∀ p ∈ b.ports, ¬ (p.tile_id = tile_id ∧ p.direction = direction) := by
        intro p hp hcon
        have hfalse := List.find?_eq_none.mp hf p hp
        simp [hcon.1, hcon.2] at hfalse
      have hfind2 : (b.ports ++
            [({ tile_id := tile_id, direction := direction, type := PortType.none } : Port)]).find?
            (fun p => p.tile_id == tile_id && p.direction == direction)
          = some { tile_id := tile_id, direction := direction, type := PortType.none } := by
        rw [List.find?_append, hf]
        simp
      refine ⟨?_, ?_, ?_⟩
      · rintro ⟨p, hp, hcon⟩
        exact absurd hcon (hnone p hp)
      · intro _
        exact ⟨by simp [Board.get_port_at, hf], by simp [Board.get_port_at, hf]⟩
      · simp [Board.get_port_at, hf, hfind2]
  | some p =>
      have hp_mem := List.mem_of_find?_eq_some hf
      have hp_pred := List.find?_some hf
      simp only [Bool.and_eq_true, beq_iff_eq] at hp_pred
      refine ⟨?_, ?_, ?_⟩
      · intro _
        refine ⟨by simp [Board.get_port_at, hf], ?_, ?_, ?_⟩ <;>
          simp [Board.get_port_at, hf, hp_mem, hp_pred.1, hp_pred.2]
      · intro h
        exact absurd ⟨p, hp_mem, hp_pred.1, hp_pred.2⟩ h
      · simp [Board.get_port_at, hf]

/-- Witness for claim C7: a board already holding the anchored port and
the empty board. -/
theorem C7_get_port_at_witness :
    ((Board.get_port_at
        { tiles := [], ports := [{ tile_id := 1, direction := "W", type := PortType.ore }],
          state := .modifiable, pieces := [] } 1 "W").2
      = { tiles := [], ports := [{ tile_id := 1, direction := "W", type := PortType.ore }],
          state := .modifiable, pieces := [] })
    ∧ ((Board.get_port_at
        { tiles := [], ports := [], state := .modifiable, pieces := [] } 1 "W").1
      = { tile_id := 1, direction := "W", type := PortType.none }) := by
  constructor
  · exact ((C7_get_port_at _ 1 "W").1
      ⟨{ tile_id := 1, direction := "W", type := PortType.ore }, by simp, rfl, rfl⟩).1
  · exact ((C7_get_port_at _ 1 "W").2.1 (by simp)).1

/-- Claim C9 counterexample: with one registered observer whose callback
unregisters itself, the Game fan-out (iterating a copy) completes and
invokes it exactly once, while the Board fan-out iterates the live set
and raises RuntimeError instead of completing the snapshot pass. -/
theorem C9_counterexample :
    (gameNotifyObservers (fun (o : Nat) l => l.erase o) [0] = ([], [0]))
    ∧ (boardNotifyObservers (fun (o : Nat) l => l.erase o) [0] = .error .runtimeError) := by
  exact ⟨rfl, rfl⟩

/-- The invoked-observer trace of the snapshot fan-out is the snapshot
itself, whatever the callbacks do to the live collection. -/
theorem gameNotify_invoked_aux {O : Type} (step : O → List O → List O)
    (pend : List O) (st inv : List O) :
    (pend.foldl (fun acc o => (step o acc.1, acc.2 ++ [o])) (st, inv)).2 = inv ++ pend := by
  induction pend generalizing st inv with
  | nil => simp
  | cons x xs ih => simp [ih]

/-- The live-set fan-out completes and invokes everything when no
callback mutates the observer collection. -/
theorem boardNotifyGo_id {O : Type} (step : O → List O → List O)
    (hstep : ∀ o l, step o l = l) (size0 : Nat) (pend : List O) :
    ∀ inv obs, obs.length = size0 →
      boardNotifyGo step size0 pend inv obs = .ok (obs, inv ++ pend) := by
  induction pend with
  | nil =>
      intro inv obs h
      simp [boardNotifyGo, h]
  | cons x xs ih =>
      intro inv obs h
      simp only [boardNotifyGo, h, if_true, hstep]
      rw [ih (inv ++ [x]) obs h]
      simp

/-- Claim C9 amended: Game.notify_observers iterates a snapshot, so every
observer registered when the fan-out starts is invoked exactly once even
if callbacks mutate the set; Board.notify_observers iterates the live
set, which only completes the pass (invoking each registered observer
once) when no callback mutates the collection — a size-changing callback
makes it raise, as the counterexample shows. -/
theorem C9_notify_snapshot {O : Type} (step : O → List O → List O) (observers : List O) :
    ((gameNotifyObservers step observers).2 = observers)
    ∧ ((∀ o l, step o l = l) →
        boardNotifyObservers step observers = .ok (observers, observers)) := by
  constructor
  · simpa using gameNotify_invoked_aux step observers observers []
  · intro hstep
    simpa using boardNotifyGo_id step hstep observers.length observers [] observers rfl

/-- Witness for claim C9 with two observers and a mutation-free step. -/
theorem C9_notify_snapshot_witness :
    ((gameNotifyObservers (fun (_ : Nat) l => l) [1, 2]).2 = [1, 2])
    ∧ (boardNotifyObservers (fun (_ : Nat) l => l) [1, 2] = .ok ([1, 2], [1, 2])) :=
  ⟨(C9_notify_snapshot _ [1, 2]).1, (C9_notify_snapshot _ [1, 2]).2 (fun _ _ => rfl)⟩

/-- Claim C10: get_pieces with a concrete coordinate returns the list of
exactly those pieces stored at (class, coord) for the requested piece
classes, but with coord=None it does not return a list at all: it
returns one bare piece whose type and owner are both None. -/
theorem C10_get_pieces (b : Board) (types : List PieceType) (c : Nat) :
    (∃ ps, b.get_pieces types (some c) = .list ps
      ∧ ∀ piece, piece ∈ ps ↔
          ∃ t ∈ types, mapFind b.pieces (piece_type_to_hex_type (some t), c) = some piece)
    ∧ (b.get_pieces types Option.none
        = .single { type := Option.none, owner := Option.none }) := by
  refine ⟨⟨_, rfl, ?_⟩, rfl⟩
  intro piece
  simp only [List.mem_filterMap, List.mem_dedup, List.mem_map]
  constructor
  · rintro ⟨idx, ⟨t, ht, hidx⟩, hfind⟩
    exact ⟨t, ht, by rw [hidx]; exact hfind⟩
  · rintro ⟨t, ht, hfind⟩
    exact ⟨_, ⟨t, ht, rfl⟩, hfind⟩

/-- Witness for claim C10 at a concrete one-piece board. -/
theorem C10_get_pieces_witness :
    ∃ ps, Board.get_pieces
        { tiles := [], ports := [], state := .modifiable,
          pieces := [((some .node, 5), { type := some .settlement, owner := Option.none })] }
        [.settlement, .city] (some 5) = .list ps
      ∧ ∀ piece, piece ∈ ps ↔
          ∃ t ∈ [PieceType.settlement, PieceType.city],
            mapFind [((some .node, 5),
                ({ type := some .settlement, owner := Option.none } : Piece))]
              (piece_type_to_hex_type (some t), 5) = some piece :=
  (C10_get_pieces _ _ 5).1

/-- Text of a block of record lines: each line followed by a newline. -/
def linesText : List String → String
  | [] => ""
  | l :: rest => l ++ "\n" ++ linesText rest

/-- linesText distributes over list concatenation. -/
theorem linesText_append (a b : List String) :
    linesText (a ++ b) = linesText a ++ linesText b := by
  induction a with
  | nil => simp [linesText]
  | cons x xs ih => simp [linesText, ih, String.append_assoc]

/-- Folding recordln over a list of lines appends their text. -/
theorem foldl_recordln_record_str {α : Type} (f : α → String) (xs : List α) (r : GameRecord) :
    (xs.foldl (fun acc p => acc.recordln (f p)) r).record_str
      = r.record_str ++ linesText (xs.map f) := by
  induction xs generalizing r with
  | nil => simp [linesText]
  | cons x xs ih =>
      simp only [List.foldl_cons, List.map_cons, linesText]
      rw [ih]
      simp [GameRecord.recordln, String.append_assoc]

/-- Unfolding equation for the record text of recordln. -/
theorem recordln_record_str (r : GameRecord) (c : String) :
    (r.recordln c).record_str = r.record_str ++ c ++ "\n" := rfl

/-- recordln keeps the timestamp field. -/
theorem recordln_timestamp (r : GameRecord) (c : String) :
    (r.recordln c).timestamp = r.timestamp := rfl

/-- recordln never changes the timestamp field, folded over a block. -/
theorem foldl_recordln_timestamp {α : Type} (f : α → String) (xs : List α) (r : GameRecord) :
    (xs.foldl (fun acc p => acc.recordln (f p)) r).timestamp = r.timestamp := by
  induction xs generalizing r with
  | nil => rfl
  | cons x xs ih =>
      rw [List.foldl_cons, ih]
      rfl

/-- Claim C8: record_pregame appends exactly the header block, in order
and byte for byte: the CatanGameRecord version line, the timestamp line,
the players count line, one roster line per player sorted ascending by
seat (the sorted roster being a permutation of the given players), the
terrain line, the numbers line, the ports line, and the closing ...CATAN!
line. -/
theorem C8_record_pregame (r : GameRecord) (players : List Player)
    (terrain : List Terrain) (numbers : List HexNumber) (ports : List PortType) :
    ((r.record_pregame players terrain numbers ports).record_str
      = r.record_str ++ linesText
          (["CatanGameRecord v0.0.1",
            "timestamp: " ++ r.timestamp,
            "players: " ++ toString players.length]
            ++ (players.insertionSort seatLE).map playerLine
            ++ ["terrain: " ++ String.intercalate " " (terrain.map Terrain.value),
                "numbers: " ++ String.intercalate " " (numbers.map HexNumber.valueStr),
                "ports: " ++ String.intercalate " " (ports.map PortType.value),
                "...CATAN!"]))
    ∧ List.Sorted seatLE (players.insertionSort seatLE)
    ∧ List.Perm (players.insertionSort seatLE) players := by
  refine ⟨?_, List.sorted_insertionSort seatLE players, List.perm_insertionSort seatLE players⟩
  unfold GameRecord.record_pregame GameRecord.set_players GameRecord.set_board_terrain
    GameRecord.set_board_numbers GameRecord.set_board_ports
  simp only [recordln_record_str, recordln_timestamp, foldl_recordln_record_str,
    foldl_recordln_timestamp, linesText_append, linesText, GameRecord.version]
  simp [String.append_assoc, linesText_append, linesText]

end Catan
